import Mathlib

/-!
Verification of the distribution-change attribution core of dowhy
(`dowhy/gcm/distribution_change.py`) via a shallow embedding.

Modelling conventions:
* Node identifiers are natural numbers; the canonical sorted node order of the
  Python code is the order of the node list passed around explicitly.
* Numeric sample values and p-values are rationals (the Python code uses
  floats; every property verified here is order-theoretic or structural and
  does not depend on rounding).
* Mechanisms are opaque labels (natural numbers); fitting a mechanism is
  recorded as an association from the node to the dataset the mechanism was
  fitted on.
* Pluggable collaborators (independence tests, the difference estimation
  function, the multiple-testing correction, the sampling engine) are function
  parameters, exactly as they are pluggable function arguments in the source.
* Randomness (index subsampling, pool shuffling) is modelled by passing the
  drawn indices / shuffled pool explicitly as inputs.
-/

namespace DistributionChange

/-! ## Marginal-change Shapley attributor: the coalition set function

Embedding of `_estimate_marginal_distribution_change.attribution_set_function`
(distribution_change.py lines 291-309).  `subset` is the binary coalition
vector; `old_causal_models` and `new_causal_models` are the two parallel
mechanism lists indexed by sorted node order; `target_samples_old` is the
cached baseline target sample; `draw_target_samples` abstracts the external
sampling engine (building the hybrid model from a mechanism list and drawing
`num_samples` target values); `difference_estimation_func` is the pluggable
difference function. -/

/-- Mechanism assignment of the hybrid model built inside the set function:
node `i` uses its new mechanism iff `subset[i] == 1`, else its old one
(distribution_change.py lines 298-302). -/
def hybrid_mechanisms (old_causal_models new_causal_models : List ℕ)
    (subset : List ℤ) : List ℕ :=
  (List.range old_causal_models.length).map fun i =>
    if subset.getD i 0 = 1 then new_causal_models.getD i 0
    else old_causal_models.getD i 0

/-- The Shapley set function `v` of the attributor
(distribution_change.py lines 291-309): short-circuit to `0` on the all-zero
coalition, otherwise build the hybrid model, draw target samples from it, and
apply the difference function against the cached baseline samples. -/
def attribution_set_function
    (difference_estimation_func : List ℚ → List ℚ → ℚ)
    (draw_target_samples : List ℕ → List ℚ)
    (target_samples_old : List ℚ)
    (old_causal_models new_causal_models : List ℕ)
    (subset : List ℤ) : ℚ :=
  if subset.all (· = 0) then 0
  else
    difference_estimation_func target_samples_old
      (draw_target_samples (hybrid_mechanisms old_causal_models new_causal_models subset))

/-! ## Local (conditional) distribution-change scorer: evaluation loop

Embedding of the evaluation loop of `_estimate_distribution_change_score`
(distribution_change.py lines 459-478).  `contrib row` abstracts one loop
body's sampled difference
`difference_estimation_func(causal_model_original.draw_samples(samples),
causal_model_new.draw_samples(samples))` for the replicated parent row;
`joint_parent_samples` is the already-subsampled evaluation pool in its
(shuffled) processing order. -/

/-- The `for joint_parent_sample in joint_parent_samples` loop: threads the
running sum `result` and the processed-row count `run`, breaking when
`old_result != 0 and (1 - result / old_result) <= early_stopping_percentage`.
Returns the final `(result, run)` pair. -/
def score_loop (contrib : ℕ → ℚ) (early_stopping_percentage : ℚ) :
    List ℕ → ℚ → ℕ → ℚ × ℕ
  | [], result, run => (result, run)
  | row :: rest, result, run =>
    let old_result := result
    let result1 := result + contrib row
    let run1 := run + 1
    if old_result ≠ 0 ∧ 1 - result1 / old_result ≤ early_stopping_percentage then
      (result1, run1)
    else
      score_loop contrib early_stopping_percentage rest result1 run1

/-- Embedding of `_estimate_distribution_change_score` after pool construction: run the
evaluation loop from `result = 0`, `run = 0` and return `result / run`
(distribution_change.py lines 459-478). -/
def _estimate_distribution_change_score (contrib : ℕ → ℚ)
    (joint_parent_samples : List ℕ) (early_stopping_percentage : ℚ) : ℚ :=
  let p := score_loop contrib early_stopping_percentage joint_parent_samples 0 0
  p.1 / (p.2 : ℚ)

/-- Shape of the evaluation loop: it processes some prefix of the pool
(`k` rows, at least one when the pool is nonempty), the final running sum is
the initial one plus the contributions of that prefix, and the final run count
is the initial one plus `k`. -/
theorem score_loop_shape (contrib : ℕ → ℚ) (pct : ℚ) (l : List ℕ) :
    ∀ (res : ℚ) (run : ℕ), ∃ k, k ≤ l.length ∧ (l ≠ [] → 1 ≤ k) ∧
      score_loop contrib pct l res run = (res + ((l.take k).map contrib).sum, run + k) := by
  induction l with
  | nil =>
    intro res run
    exact ⟨0, by simp, by simp, by simp [score_loop]⟩
  | cons row rest ih =>
    intro res run
    by_cases h : res ≠ 0 ∧ 1 - (res + contrib row) / res ≤ pct
    · refine ⟨1, by simp, fun _ => le_refl 1, ?_⟩
      simp only [score_loop]
      rw [if_pos h]
      simp
    · obtain ⟨k, hk, _, heq⟩ := ih (res + contrib row) (run + 1)
      refine ⟨k + 1, by simp; omega, fun _ => by omega, ?_⟩
      simp only [score_loop]
      rw [if_neg h, heq]
      simp [Prod.ext_iff]
      exact ⟨by ring, by omega⟩

/-- Stepping the loop from a zero running sum never breaks: the break guard
`old_result != 0` is false on the first processed row. -/
theorem score_loop_first_row (contrib : ℕ → ℚ) (pct : ℚ) (row : ℕ) (rest : List ℕ) :
    score_loop contrib pct (row :: rest) 0 0
      = score_loop contrib pct rest (contrib row) 1 := by
  simp only [score_loop]
  rw [if_neg (by simp)]
  norm_num

/-- C4: in `_estimate_distribution_change_score`, early stopping triggers
after a row exactly when the prior running sum was nonzero and the relative
change `1 - result / old_result` is at most the early-stop percentage; the
first processed row never triggers early stop (so with at least two pool rows
at least two rows are processed); and the returned value is the running sum
over the processed rows divided by the number of rows actually processed,
which can be smaller than the full pool size. -/
theorem early_stop_characterization (contrib : ℕ → ℚ) (pct : ℚ) (pool : List ℕ) :
    (∀ (res : ℚ) (run row : ℕ) (rest : List ℕ), rest ≠ [] →
      ((score_loop contrib pct (row :: rest) res run).2 = run + 1 ↔
        res ≠ 0 ∧ 1 - (res + contrib row) / res ≤ pct)) ∧
    (∀ (row : ℕ) (rest : List ℕ),
      score_loop contrib pct (row :: rest) 0 0
        = score_loop contrib pct rest (contrib row) 1) ∧
    (2 ≤ pool.length → 2 ≤ (score_loop contrib pct pool 0 0).2) ∧
    (_estimate_distribution_change_score contrib pool pct
        = ((pool.take (score_loop contrib pct pool 0 0).2).map contrib).sum
            / ((score_loop contrib pct pool 0 0).2 : ℚ) ∧
      (score_loop contrib pct pool 0 0).2 ≤ pool.length) := by
  refine ⟨?_, score_loop_first_row contrib pct, ?_, ?_⟩
  · intro res run row rest hrest
    constructor
    · intro hcount
      by_contra h
      obtain ⟨k, _, hpos, heq⟩ := score_loop_shape contrib pct rest (res + contrib row) (run + 1)
      have : (score_loop contrib pct (row :: rest) res run).2 = run + 1 + k := by
        simp only [score_loop]
        rw [if_neg h, heq]
      have hk1 := hpos hrest
      omega
    · intro h
      simp only [score_loop]
      rw [if_pos h]
  · intro hlen
    match pool, hlen with
    | row :: next :: rest, _ =>
      rw [score_loop_first_row]
      obtain ⟨k, _, hpos, heq⟩ := score_loop_shape contrib pct (next :: rest) (contrib row) 1
      rw [heq]
      have h1 := hpos (by simp)
      simp
      omega
  · obtain ⟨k, hk, _, heq⟩ := score_loop_shape contrib pct pool 0 0
    constructor
    · simp only [_estimate_distribution_change_score, heq]
      simp
    · rw [heq]
      simpa using hk

/-- Witness for C4 on a concrete pool: with contributions `1, 2, 3` and
early-stop percentage `0`, the loop stops after the second row and the
returned score is the mean `3 / 2` over the two processed rows. -/
theorem early_stop_characterization_witness :
    ((score_loop (fun r => (r : ℚ)) 0 ([1, 2] : List ℕ) 1 5).2 = 5 + 1 ↔
      (1 : ℚ) ≠ 0 ∧ 1 - ((1 : ℚ) + (1 : ℚ)) / 1 ≤ 0) ∧
    (2 ≤ (score_loop (fun r => (r : ℚ)) 0 ([1, 2, 3] : List ℕ) 0 0).2) ∧
    _estimate_distribution_change_score (fun r => (r : ℚ)) ([1, 2, 3] : List ℕ) 0 = 3 / 2 := by
  refine ⟨?_, ?_, ?_⟩
  · have h := (early_stop_characterization (fun r => (r : ℚ)) 0 ([1, 2, 3] : List ℕ)).1
      1 5 1 [2] (by simp)
    simpa using h
  · exact (early_stop_characterization (fun r => (r : ℚ)) 0 ([1, 2, 3] : List ℕ)).2.2.1 (by simp)
  · have h := ((early_stop_characterization (fun r => (r : ℚ)) 0 ([1, 2, 3] : List ℕ)).2.2.2).1
    rw [h]
    norm_num [score_loop]

/-- C10: with a pool of at least two rows, only nonnegative contributions, a
nonzero first contribution and a nonnegative early-stop percentage, the loop
breaks right after the second row, so exactly two rows are processed (in
particular at most two). -/
theorem early_stop_after_two_rows (contrib : ℕ → ℚ) (pct : ℚ) (a b : ℕ) (rest : List ℕ)
    (hnn : ∀ r ∈ a :: b :: rest, 0 ≤ contrib r)
    (ha : contrib a ≠ 0) (hpct : 0 ≤ pct) :
    (score_loop contrib pct (a :: b :: rest) 0 0).2 = 2 := by
  have hapos : 0 < contrib a := lt_of_le_of_ne (hnn a (by simp)) (Ne.symm ha)
  have hbnn : 0 ≤ contrib b := hnn b (by simp)
  rw [score_loop_first_row]
  simp only [score_loop]
  rw [if_pos ?_]
  constructor
  · exact ha
  · have hdiv : 1 ≤ (contrib a + contrib b) / contrib a := by
      rw [le_div_iff₀ hapos]
      simpa using hbnn
    linarith

/-- Witness for C10: with contributions equal to the row values on the pool
`[1, 2, 3]` and early-stop percentage `1/100`, exactly two rows are
processed. -/
theorem early_stop_after_two_rows_witness :
    (score_loop (fun r => (r : ℚ)) (1 / 100) ([1, 2, 3] : List ℕ) 0 0).2 = 2 :=
  early_stop_after_two_rows (fun r => (r : ℚ)) (1 / 100) 1 2 [3]
    (by intro r hr; positivity) (by simp) (by norm_num)

/-- C1: the Shapley set function returns exactly `0` on the all-zero
coalition, for every difference function and every sampling engine (the
short-circuit fires before any hybrid model is built or samples are drawn);
for every other coalition the value is the difference function applied to the
baseline samples and freshly drawn samples of the hybrid model. -/
theorem attribution_set_function_spec
    (difference_estimation_func : List ℚ → List ℚ → ℚ)
    (draw_target_samples : List ℕ → List ℚ)
    (target_samples_old : List ℚ)
    (old_causal_models new_causal_models : List ℕ) (subset : List ℤ) :
    (subset.all (· = 0) = true →
      ∀ (f : List ℚ → List ℚ → ℚ) (g : List ℕ → List ℚ),
        attribution_set_function f g target_samples_old
          old_causal_models new_causal_models subset = 0) ∧
    (¬ subset.all (· = 0) = true →
      attribution_set_function difference_estimation_func draw_target_samples
          target_samples_old old_causal_models new_causal_models subset
        = difference_estimation_func target_samples_old
            (draw_target_samples
              (hybrid_mechanisms old_causal_models new_causal_models subset))) := by
  constructor
  · intro h f g
    simp [attribution_set_function, h]
  · intro h
    simp [attribution_set_function, h]

/-- Witness for C1: on mechanisms `[3, 4]` (old) and `[5, 6]` (new), the
all-zero coalition evaluates to `0` and the coalition `[1, 0]` evaluates to
the sampled difference `8`. -/
theorem attribution_set_function_spec_witness :
    attribution_set_function (fun a b => b.sum - a.sum)
        (fun ms => ms.map fun m => (m : ℚ)) [1] [3, 4] [5, 6] [0, 0] = 0 ∧
    attribution_set_function (fun a b => b.sum - a.sum)
        (fun ms => ms.map fun m => (m : ℚ)) [1] [3, 4] [5, 6] [1, 0] = 8 := by
  constructor
  · exact (attribution_set_function_spec (fun a b => b.sum - a.sum)
      (fun ms => ms.map fun m => (m : ℚ)) [1] [3, 4] [5, 6] [0, 0]).1 (by decide) _ _
  · have h := (attribution_set_function_spec (fun a b => b.sum - a.sum)
      (fun ms => ms.map fun m => (m : ℚ)) [1] [3, 4] [5, 6] [1, 0]).2 (by decide)
    rw [h, show hybrid_mechanisms [3, 4] [5, 6] [1, 0] = [5, 4] from rfl]
    norm_num

/-! ## Conditional refit orchestrator

Embedding of `_fit_accounting_for_mechanism_change`
(distribution_change.py lines 244-274).  A causal model is recorded as the
association from each node to the dataset its mechanism was last fitted on
(`fit_causal_model_of_target model node data` fits the mechanism of `node` on
`data`); datasets are lists of opaque rows.  The per-node change flags are the
screener result, passed explicitly. -/

/-- A fitted causal model, recorded as which dataset each node's mechanism was
fitted on (`none` = not yet fitted by the refit step). -/
abbrev FitRecord := ℕ → Option (List ℕ)

/-- Embedding of `fit_causal_model_of_target(model, node, data)`: (re)fit the mechanism of
`node` in `model` on `data`. -/
def fit_causal_model_of_target (model : FitRecord) (node : ℕ) (data : List ℕ) :
    FitRecord :=
  Function.update model node (some data)

/-- Embedding of `pd.concat([old_data, new_data], ignore_index=True, sort=True)`
(distribution_change.py line 264): the pooled dataset, all old rows followed
by all new rows (the `sort=True` flag orders columns, not rows). -/
def joint_data (old_data new_data : List ℕ) : List ℕ :=
  old_data ++ new_data

/-- One iteration of the refit loop (distribution_change.py lines 266-272):
a changed node is fitted on old data in the old model and on new data in the
new model; an unchanged node is fitted on the pooled data in both models. -/
def refit_node (mechanism_changed_for_node : ℕ → Bool) (old_data new_data : List ℕ)
    (models : FitRecord × FitRecord) (node : ℕ) : FitRecord × FitRecord :=
  if mechanism_changed_for_node node then
    (fit_causal_model_of_target models.1 node old_data,
     fit_causal_model_of_target models.2 node new_data)
  else
    (fit_causal_model_of_target models.1 node (joint_data old_data new_data),
     fit_causal_model_of_target models.2 node (joint_data old_data new_data))

/-- Embedding of `_fit_accounting_for_mechanism_change` after the screener has produced the
change flags: loop over the graph nodes and refit both models per node. -/
def _fit_accounting_for_mechanism_change (nodes : List ℕ)
    (mechanism_changed_for_node : ℕ → Bool)
    (model_old model_new : FitRecord) (old_data new_data : List ℕ) :
    FitRecord × FitRecord :=
  nodes.foldl (refit_node mechanism_changed_for_node old_data new_data)
    (model_old, model_new)

/-- Nodes not in the remaining node list are untouched by the refit loop. -/
theorem refit_fold_untouched (mechanism_changed_for_node : ℕ → Bool)
    (old_data new_data : List ℕ) (ns : List ℕ) (n : ℕ) (hn : n ∉ ns) :
    ∀ st : FitRecord × FitRecord,
      (ns.foldl (refit_node mechanism_changed_for_node old_data new_data) st).1 n
          = st.1 n ∧
      (ns.foldl (refit_node mechanism_changed_for_node old_data new_data) st).2 n
          = st.2 n := by
  induction ns with
  | nil => intro st; exact ⟨rfl, rfl⟩
  | cons m ms ih =>
    intro st
    have hnm : n ≠ m := fun h => hn (h ▸ List.mem_cons_self m ms)
    have hnms : n ∉ ms := fun h => hn (List.mem_cons_of_mem m h)
    have hstep : (refit_node mechanism_changed_for_node old_data new_data st m).1 n
        = st.1 n ∧
        (refit_node mechanism_changed_for_node old_data new_data st m).2 n = st.2 n := by
      unfold refit_node fit_causal_model_of_target
      by_cases hc : mechanism_changed_for_node m <;>
        simp [hc, Function.update_noteq hnm]
    obtain ⟨h1, h2⟩ := ih hnms (refit_node mechanism_changed_for_node old_data new_data st m)
    simp only [List.foldl_cons]
    exact ⟨h1.trans hstep.1, h2.trans hstep.2⟩

/-- C2: after the conditional refit step, every node flagged changed has its
old-model mechanism fitted only on the old data and its new-model mechanism
only on the new data, while every node flagged unchanged has both models'
mechanisms fitted on the pooled dataset, the row-concatenation of all old
rows followed by all new rows. -/
theorem refit_accounting_spec (nodes : List ℕ)
    (mechanism_changed_for_node : ℕ → Bool) (model_old model_new : FitRecord)
    (old_data new_data : List ℕ) (n : ℕ)
    (hnodup : nodes.Nodup) (hmem : n ∈ nodes) :
    (mechanism_changed_for_node n = true →
      (_fit_accounting_for_mechanism_change nodes mechanism_changed_for_node
          model_old model_new old_data new_data).1 n = some old_data ∧
      (_fit_accounting_for_mechanism_change nodes mechanism_changed_for_node
          model_old model_new old_data new_data).2 n = some new_data) ∧
    (mechanism_changed_for_node n = false →
      (_fit_accounting_for_mechanism_change nodes mechanism_changed_for_node
          model_old model_new old_data new_data).1 n
          = some (old_data ++ new_data) ∧
      (_fit_accounting_for_mechanism_change nodes mechanism_changed_for_node
          model_old model_new old_data new_data).2 n
          = some (old_data ++ new_data)) := by
  unfold _fit_accounting_for_mechanism_change
  induction nodes generalizing model_old model_new with
  | nil => cases hmem
  | cons m ms ih =>
    rcases List.mem_cons.mp hmem with h | h
    · subst h
      have hnms : n ∉ ms := (List.nodup_cons.mp hnodup).1
      simp only [List.foldl_cons]
      obtain ⟨h1, h2⟩ := refit_fold_untouched mechanism_changed_for_node old_data new_data
        ms n hnms (refit_node mechanism_changed_for_node old_data new_data
          (model_old, model_new) n)
      rw [h1, h2]
      constructor
      · intro hc
        unfold refit_node fit_causal_model_of_target joint_data
        simp [hc]
      · intro hc
        unfold refit_node fit_causal_model_of_target joint_data
        simp [hc]
    · simp only [List.foldl_cons]
      have := ih
        (refit_node mechanism_changed_for_node old_data new_data (model_old, model_new) m).1
        (refit_node mechanism_changed_for_node old_data new_data (model_old, model_new) m).2
        (List.nodup_cons.mp hnodup).2 h
      simpa using this

/-- Witness for C2 on a concrete run: nodes `0` (changed) and `1` (unchanged),
old rows `[10]`, new rows `[20]`. -/
theorem refit_accounting_spec_witness :
    ((_fit_accounting_for_mechanism_change [0, 1] (fun m => m == 0)
        (fun _ => none) (fun _ => none) [10] [20]).1 0 = some [10] ∧
      (_fit_accounting_for_mechanism_change [0, 1] (fun m => m == 0)
        (fun _ => none) (fun _ => none) [10] [20]).2 0 = some [20]) ∧
    ((_fit_accounting_for_mechanism_change [0, 1] (fun m => m == 0)
        (fun _ => none) (fun _ => none) [10] [20]).1 1 = some ([10] ++ [20]) ∧
      (_fit_accounting_for_mechanism_change [0, 1] (fun m => m == 0)
        (fun _ => none) (fun _ => none) [10] [20]).2 1 = some ([10] ++ [20])) :=
  ⟨(refit_accounting_spec [0, 1] (fun m => m == 0) (fun _ => none) (fun _ => none)
      [10] [20] 0 (by decide) (by decide)).1 (by decide),
   (refit_accounting_spec [0, 1] (fun m => m == 0) (fun _ => none) (fun _ => none)
      [10] [20] 1 (by decide) (by decide)).2 (by decide)⟩

/-! ## Multi-node change screener

Embedding of `_check_significant_mechanism_change`
(distribution_change.py lines 399-433).  `mechanism_change_test_for_node n`
abstracts the per-node call of `mechanism_change_test` on the node's (and,
for non-root nodes, its ordered predecessors') data columns (lines 409-426);
it is `Except`-valued because the pluggable tests may raise.  The
multiple-testing correction (`statsmodels.stats.multitest.multipletests`,
whose first return component is the reject vector) is the pluggable external
collaborator `multipletests_reject`. -/

/-- Embedding of `_check_significant_mechanism_change`: collect all per-node p-values in
node iteration order, then flag each node by `p <= significance_level` when
`fdr_control_method` is `None`, else by the reject decisions of the
multiple-testing correction on the full p-value vector; the result maps the
nodes, in order, to the flags (`dict(zip(graph.nodes, successes))`). -/
def _check_significant_mechanism_change (nodes : List ℕ)
    (mechanism_change_test_for_node : ℕ → Except String ℚ)
    (significance_level : ℚ)
    (fdr_control : Option (List ℚ → ℚ → List Bool)) :
    Except String (List (ℕ × Bool)) := do
  let all_p_values ← nodes.mapM mechanism_change_test_for_node
  let successes :=
    match fdr_control with
    | none => all_p_values.map fun p => decide (p ≤ significance_level)
    | some multipletests_reject => multipletests_reject all_p_values significance_level
  return nodes.zip successes

/-- When every per-node test succeeds, collecting the p-values succeeds and
yields them in node order. -/
theorem mapM_test_ok (mechanism_change_test_for_node : ℕ → Except String ℚ)
    (p_value : ℕ → ℚ)
    (h : ∀ n, mechanism_change_test_for_node n = Except.ok (p_value n)) :
    ∀ ns : List ℕ, ns.mapM mechanism_change_test_for_node = Except.ok (ns.map p_value) := by
  intro ns
  induction ns with
  | nil => rfl
  | cons m ms ih =>
    rw [List.mapM_cons, h m, ih]
    rfl

/-- C3: with no FDR-control method, a node is flagged changed exactly when its
p-value is at most the significance level, each node's flag depending only on
its own p-value; with an FDR-control method, the flags are exactly the reject
decisions of the correction applied to the full p-value vector at that
level. -/
theorem check_significant_mechanism_change_spec (nodes : List ℕ)
    (mechanism_change_test_for_node : ℕ → Except String ℚ) (p_value : ℕ → ℚ)
    (significance_level : ℚ)
    (htest : ∀ n, mechanism_change_test_for_node n = Except.ok (p_value n)) :
    (_check_significant_mechanism_change nodes mechanism_change_test_for_node
        significance_level none
      = Except.ok (nodes.zip (nodes.map fun n => decide (p_value n ≤ significance_level)))) ∧
    (∀ multipletests_reject,
      _check_significant_mechanism_change nodes mechanism_change_test_for_node
          significance_level (some multipletests_reject)
        = Except.ok (nodes.zip
            (multipletests_reject (nodes.map p_value) significance_level))) := by
  constructor
  · simp only [_check_significant_mechanism_change,
      mapM_test_ok mechanism_change_test_for_node p_value htest nodes]
    simp [List.map_map, Function.comp_def]
  · intro multipletests_reject
    simp only [_check_significant_mechanism_change,
      mapM_test_ok mechanism_change_test_for_node p_value htest nodes]
    rfl

/-- Witness for C3: two nodes with p-values `1/100` and `1/2` at level
`1/20`, without correction and with a correction rejecting everything. -/
theorem check_significant_mechanism_change_spec_witness :
    (_check_significant_mechanism_change [0, 1]
        (fun n => Except.ok (if n = 0 then (1 : ℚ) / 100 else 1 / 2)) (1 / 20) none
      = Except.ok [(0, true), (1, false)]) ∧
    (_check_significant_mechanism_change [0, 1]
        (fun n => Except.ok (if n = 0 then (1 : ℚ) / 100 else 1 / 2)) (1 / 20)
        (some fun ps _ => ps.map fun _ => true)
      = Except.ok [(0, true), (1, true)]) := by
  constructor
  · have h := (check_significant_mechanism_change_spec [0, 1]
      (fun n => Except.ok (if n = 0 then (1 : ℚ) / 100 else 1 / 2))
      (fun n => if n = 0 then (1 : ℚ) / 100 else 1 / 2) (1 / 20) (fun _ => rfl)).1
    rw [h]
    norm_num
  · have h := (check_significant_mechanism_change_spec [0, 1]
      (fun n => Except.ok (if n = 0 then (1 : ℚ) / 100 else 1 / 2))
      (fun n => if n = 0 then (1 : ℚ) / 100 else 1 / 2) (1 / 20) (fun _ => rfl)).2
      (fun ps _ => ps.map fun _ => true)
    rw [h]
    rfl

/-- Collecting p-values short-circuits at the first failing test and returns
its error unmodified. -/
theorem mapM_test_error (mechanism_change_test_for_node : ℕ → Except String ℚ)
    (n : ℕ) (e : String) (post : List ℕ)
    (hn : mechanism_change_test_for_node n = Except.error e) :
    ∀ pre : List ℕ, (∀ m ∈ pre, ∃ p, mechanism_change_test_for_node m = Except.ok p) →
      (pre ++ n :: post).mapM mechanism_change_test_for_node = Except.error e := by
  intro pre
  induction pre with
  | nil =>
    intro _
    rw [List.nil_append, List.mapM_cons, hn]
    rfl
  | cons m ms ih =>
    intro hpre
    obtain ⟨p, hp⟩ := hpre m (List.mem_cons_self m ms)
    rw [List.cons_append, List.mapM_cons, hp,
      ih fun x hx => hpre x (List.mem_cons_of_mem m hx)]
    rfl

/-- Modelled from the statsmodels source: the hard-wired multiple-testing
correction `statsmodels.stats.multitest.multipletests` (imported at
distribution_change.py line 13 and called at line 431; not part of this
repository) computes `alphacSidak = 1 - np.power(1. - alpha, 1. / ntests)`
with `ntests = len(pvals)` before dispatching on the method string, so an
empty p-value vector raises `ZeroDivisionError` for every method; on nonempty
input the method's reject decisions (the first component of its return value)
are produced, abstracted here as the pluggable `reject_decisions`
function. -/
def multipletests (reject_decisions : List ℚ → ℚ → List Bool)
    (pvals : List ℚ) (alpha : ℚ) : Except String (List Bool) :=
  if pvals.length = 0 then
    Except.error "ZeroDivisionError: float division by zero"
  else
    Except.ok (reject_decisions pvals alpha)

/-- Embedding of `_check_significant_mechanism_change`
(distribution_change.py lines 399-433) with the fallibility of the hard-wired
statsmodels correction modelled: identical to
`_check_significant_mechanism_change` except that the correction call may
raise, and its error propagates out of the screener. -/
def _check_significant_mechanism_change_statsmodels (nodes : List ℕ)
    (mechanism_change_test_for_node : ℕ → Except String ℚ)
    (significance_level : ℚ)
    (fdr_control : Option (List ℚ → ℚ → Except String (List Bool))) :
    Except String (List (ℕ × Bool)) := do
  let all_p_values ← nodes.mapM mechanism_change_test_for_node
  match fdr_control with
  | none =>
      return nodes.zip (all_p_values.map fun p => decide (p ≤ significance_level))
  | some correction => do
      let successes ← correction all_p_values significance_level
      return nodes.zip successes

/-- Counterexample for C9: on a zero-node graph with a correction method
given, the screener does not return an empty mapping — the hard-wired
`multipletests` correction receives the empty p-value vector and raises
`ZeroDivisionError` (it computes `1. / ntests` before method dispatch), which
propagates. -/
theorem check_significant_mechanism_change_empty_fdr_counterexample :
    _check_significant_mechanism_change_statsmodels []
        (fun _ => Except.ok (1 : ℚ)) (1 / 20)
        (some (multipletests fun ps a => ps.map fun p => decide (p ≤ a)))
      = Except.error "ZeroDivisionError: float division by zero" ∧
    _check_significant_mechanism_change_statsmodels []
        (fun _ => Except.ok (1 : ℚ)) (1 / 20)
        (some (multipletests fun ps a => ps.map fun p => decide (p ≤ a)))
      ≠ Except.ok [] :=
  ⟨rfl, fun h => Except.noConfusion h⟩

/-- C9 (amended): on a zero-node graph the screener returns the empty mapping
when the FDR-control method is `None`; when a correction method is given, the
hard-wired `multipletests` correction raises a division-by-zero error on the
empty p-value vector, and that error propagates instead of an empty mapping;
on a nonempty graph with succeeding tests the correction's reject decisions
are the flags; and an error raised by a pluggable test propagates unmodified
(no retry or suppression layer). -/
theorem check_significant_mechanism_change_degenerate
    (mechanism_change_test_for_node : ℕ → Except String ℚ)
    (significance_level : ℚ) :
    (_check_significant_mechanism_change_statsmodels []
        mechanism_change_test_for_node significance_level none = Except.ok []) ∧
    (∀ reject_decisions,
      _check_significant_mechanism_change_statsmodels []
          mechanism_change_test_for_node significance_level
          (some (multipletests reject_decisions))
        = Except.error "ZeroDivisionError: float division by zero") ∧
    (∀ (nodes : List ℕ) (p_value : ℕ → ℚ) (reject_decisions : List ℚ → ℚ → List Bool),
      nodes ≠ [] →
      (∀ n, mechanism_change_test_for_node n = Except.ok (p_value n)) →
      _check_significant_mechanism_change_statsmodels nodes
          mechanism_change_test_for_node significance_level
          (some (multipletests reject_decisions))
        = Except.ok (nodes.zip
            (reject_decisions (nodes.map p_value) significance_level))) ∧
    (∀ (pre post : List ℕ) (n : ℕ) (e : String)
        (fdr_control : Option (List ℚ → ℚ → Except String (List Bool))),
      (∀ m ∈ pre, ∃ p, mechanism_change_test_for_node m = Except.ok p) →
      mechanism_change_test_for_node n = Except.error e →
      _check_significant_mechanism_change_statsmodels (pre ++ n :: post)
          mechanism_change_test_for_node significance_level fdr_control
        = Except.error e) := by
  refine ⟨rfl, fun _ => rfl, ?_, ?_⟩
  · intro nodes p_value reject_decisions hne htest
    match nodes, hne with
    | m :: ms, _ =>
      simp only [_check_significant_mechanism_change_statsmodels,
        mapM_test_ok mechanism_change_test_for_node p_value htest (m :: ms)]
      rfl
  · intro pre post n e fdr_control hpre hn
    simp only [_check_significant_mechanism_change_statsmodels,
      mapM_test_error mechanism_change_test_for_node n e post hn pre hpre]
    rfl

/-- Witness for C9 (amended): the empty graph yields the empty mapping with
no correction and the division-by-zero error with the statsmodels correction;
a two-node graph with succeeding tests gets the correction's reject
decisions; a test failing at node `1` (after a succeeding node `0`)
propagates its error. -/
theorem check_significant_mechanism_change_degenerate_witness :
    (_check_significant_mechanism_change_statsmodels []
        (fun _ => Except.ok (1 : ℚ)) (1 / 20) none = Except.ok []) ∧
    (_check_significant_mechanism_change_statsmodels []
        (fun _ => Except.ok (1 : ℚ)) (1 / 20)
        (some (multipletests fun ps a => ps.map fun p => decide (p ≤ a)))
      = Except.error "ZeroDivisionError: float division by zero") ∧
    (_check_significant_mechanism_change_statsmodels [0, 1]
        (fun n => Except.ok (if n = 0 then (1 : ℚ) / 100 else 1 / 2)) (1 / 20)
        (some (multipletests fun ps a => ps.map fun p => decide (p ≤ a)))
      = Except.ok [(0, true), (1, false)]) ∧
    (_check_significant_mechanism_change_statsmodels [0, 1]
        (fun n => if n = 0 then Except.ok (1 : ℚ) else Except.error "test failed")
        (1 / 20) none
      = Except.error "test failed") := by
  refine ⟨?_, ?_, ?_, ?_⟩
  · exact (check_significant_mechanism_change_degenerate
      (fun _ => Except.ok (1 : ℚ)) (1 / 20)).1
  · exact (check_significant_mechanism_change_degenerate
      (fun _ => Except.ok (1 : ℚ)) (1 / 20)).2.1 _
  · have h := (check_significant_mechanism_change_degenerate
      (fun n => Except.ok (if n = 0 then (1 : ℚ) / 100 else 1 / 2)) (1 / 20)).2.2.1
      [0, 1] (fun n => if n = 0 then (1 : ℚ) / 100 else 1 / 2)
      (fun ps a => ps.map fun p => decide (p ≤ a)) (by simp) (fun _ => rfl)
    rw [h]
    norm_num
  · exact (check_significant_mechanism_change_degenerate
      (fun n => if n = 0 then Except.ok (1 : ℚ) else Except.error "test failed")
      (1 / 20)).2.2.2 [0] [] 1 "test failed" none
      (by intro m hm; simp at hm; subst hm; exact ⟨1, rfl⟩) rfl

/-! ## Mechanism-change tester

Embedding of `mechanism_change_test` (distribution_change.py lines 37-91).
The random index draws `np.random.choice(len, n, replace=False)` are passed
in explicitly as `original_indices` / `new_indices`; the two pluggable tests
are function parameters.  Target samples are single columns (`List ℚ`),
parent samples are row lists (`List (List ℚ)`). -/

/-- Modelled from numpy: `astype(str)` on a float64 array renders each entry
with Python float formatting, so the integral-valued entries `1.0` and `-1.0`
of the label array become `"1.0"` and `"-1.0"`.  The argument is the integral
value of the float. -/
def numpy_float_to_str (x : ℤ) : String :=
  toString x ++ ".0"

/-- The label vector of `mechanism_change_test`
(distribution_change.py lines 72-74): `np.ones(2n)` with the second half set
to `-1`, then `astype(str)`. -/
def data_set_indices (num_samples_for_testing : ℕ) : List String :=
  (List.replicate num_samples_for_testing (1 : ℤ)
    ++ List.replicate num_samples_for_testing (-1 : ℤ)).map numpy_float_to_str

/-- Fancy-indexing a sample column by an index list (`data[indices]`). -/
def select_samples (data : List ℚ) (indices : List ℕ) : List ℚ :=
  indices.map fun i => data.getD i 0

/-- Fancy-indexing a row matrix by an index list. -/
def select_rows (data : List (List ℚ)) (indices : List ℕ) : List (List ℚ) :=
  indices.map fun i => data.getD i []

/-- Embedding of `mechanism_change_test` (distribution_change.py lines 37-91): validate
that parent data is given for both regimes or neither, build the balanced
label vector and the stacked target samples over `n = min(|old|, |new|)`
subsampled rows per regime, and run the unconditional test (no parents) or
the conditional test (parents given, stacked in the same alignment). -/
def mechanism_change_test (target_original_data target_new_data : List ℚ)
    (parents_original_data parents_new_data : Option (List (List ℚ)))
    (original_indices new_indices : List ℕ)
    (independence_test : List ℚ → List String → ℚ)
    (conditional_independence_test : List ℚ → List String → List (List ℚ) → ℚ) :
    Except String ℚ :=
  if parents_original_data.isSome ∧ parents_new_data.isNone then
    Except.error "Original parents data were given, but no new parents data!"
  else if parents_original_data.isNone ∧ parents_new_data.isSome then
    Except.error "New parents data were given, but no original parents data!"
  else
    let num_samples_for_testing := min target_original_data.length target_new_data.length
    let labels := data_set_indices num_samples_for_testing
    let joint_target_samples :=
      select_samples target_original_data original_indices
        ++ select_samples target_new_data new_indices
    match parents_original_data, parents_new_data with
    | some po, some pn =>
        Except.ok (conditional_independence_test joint_target_samples labels
          (select_rows po original_indices ++ select_rows pn new_indices))
    | _, _ => Except.ok (independence_test joint_target_samples labels)

/-- Counterexample for C5: the label entries produced by the code are the
float strings `"1.0"` and `"-1.0"`, not `"1"` and `"-1"` — already at
`n = 1` the label vector differs from `["1", "-1"]`. -/
theorem data_set_indices_entries_counterexample :
    data_set_indices 1 = ["1.0", "-1.0"] ∧ data_set_indices 1 ≠ ["1", "-1"] := by
  constructor
  · rfl
  · decide

/-- C5 (amended): the test uses `n = min(|old|, |new|)` indices per regime
(drawn without replacement, i.e. duplicate-free and of length `n`), labels the
old half `"1.0"` and the new half `"-1.0"`, and stacks the selected old
target rows above the selected new target rows, aligned with the labels. -/
theorem mechanism_change_test_balanced_construction
    (target_original_data target_new_data : List ℚ)
    (original_indices new_indices : List ℕ)
    (independence_test : List ℚ → List String → ℚ)
    (conditional_independence_test : List ℚ → List String → List (List ℚ) → ℚ)
    (h_len_orig : original_indices.length
      = min target_original_data.length target_new_data.length)
    (h_len_new : new_indices.length
      = min target_original_data.length target_new_data.length)
    (h_nodup_orig : original_indices.Nodup) (h_nodup_new : new_indices.Nodup) :
    (data_set_indices (min target_original_data.length target_new_data.length)
      = List.replicate (min target_original_data.length target_new_data.length) "1.0"
        ++ List.replicate (min target_original_data.length target_new_data.length)
            "-1.0") ∧
    (mechanism_change_test target_original_data target_new_data none none
        original_indices new_indices independence_test conditional_independence_test
      = Except.ok (independence_test
          (select_samples target_original_data original_indices
            ++ select_samples target_new_data new_indices)
          (data_set_indices
            (min target_original_data.length target_new_data.length)))) ∧
    ((select_samples target_original_data original_indices).length
      = min target_original_data.length target_new_data.length) ∧
    ((select_samples target_new_data new_indices).length
      = min target_original_data.length target_new_data.length) ∧
    (∀ parents_original parents_new,
      mechanism_change_test target_original_data target_new_data
          (some parents_original) (some parents_new) original_indices new_indices
          independence_test conditional_independence_test
        = Except.ok (conditional_independence_test
            (select_samples target_original_data original_indices
              ++ select_samples target_new_data new_indices)
            (data_set_indices
              (min target_original_data.length target_new_data.length))
            (select_rows parents_original original_indices
              ++ select_rows parents_new new_indices))) := by
  refine ⟨?_, ?_, ?_, ?_, ?_⟩
  · simp only [data_set_indices, List.map_append, List.map_replicate]
    rfl
  · rfl
  · simp [select_samples, h_len_orig]
  · simp [select_samples, h_len_new]
  · intro parents_original parents_new
    rfl

/-- Witness for C5 (amended) on old samples `[10, 20]`, new samples `[30]`
(`n = 1`), drawing index `1` from the old and `0` from the new set. -/
theorem mechanism_change_test_balanced_construction_witness :
    mechanism_change_test [10, 20] [30] none none [1] [0]
        (fun samples labels => (samples.length : ℚ) + labels.length)
        (fun _ _ _ => 0)
      = Except.ok 4 := by
  have h := (mechanism_change_test_balanced_construction [10, 20] [30] [1] [0]
    (fun samples labels => (samples.length : ℚ) + labels.length)
    (fun _ _ _ => 0) (by decide) (by decide) (by decide) (by decide)).2.1
  rw [h]
  norm_num [select_samples, data_set_indices]

/-- C6: `mechanism_change_test` raises the input-validation error exactly when
parent data is supplied for one regime only, before any subsampling or test
invocation (the error does not depend on the drawn indices or the pluggable
tests); with parent data for both regimes or for neither, no error is
raised. -/
theorem mechanism_change_test_parent_validation
    (target_original_data target_new_data : List ℚ)
    (parents : List (List ℚ)) :
    (∀ original_indices new_indices independence_test conditional_independence_test,
      mechanism_change_test target_original_data target_new_data (some parents) none
          original_indices new_indices independence_test conditional_independence_test
        = Except.error "Original parents data were given, but no new parents data!") ∧
    (∀ original_indices new_indices independence_test conditional_independence_test,
      mechanism_change_test target_original_data target_new_data none (some parents)
          original_indices new_indices independence_test conditional_independence_test
        = Except.error "New parents data were given, but no original parents data!") ∧
    (∀ parents_new original_indices new_indices independence_test
        conditional_independence_test,
      ∃ p, mechanism_change_test target_original_data target_new_data (some parents)
          (some parents_new) original_indices new_indices independence_test
          conditional_independence_test = Except.ok p) ∧
    (∀ original_indices new_indices independence_test conditional_independence_test,
      ∃ p, mechanism_change_test target_original_data target_new_data none none
          original_indices new_indices independence_test
          conditional_independence_test = Except.ok p) := by
  refine ⟨fun _ _ _ _ => rfl, fun _ _ _ _ => rfl, ?_, ?_⟩
  · intro parents_new original_indices new_indices independence_test
      conditional_independence_test
    exact ⟨_, rfl⟩
  · intro original_indices new_indices independence_test conditional_independence_test
    exact ⟨_, rfl⟩

/-- Witness for C6 at concrete inputs: supplying only old-regime parent data
errors, supplying both succeeds. -/
theorem mechanism_change_test_parent_validation_witness :
    (mechanism_change_test [1] [2] (some [[3]]) none [0] [0]
        (fun _ _ => 0) (fun _ _ _ => 0)
      = Except.error "Original parents data were given, but no new parents data!") ∧
    (∃ p, mechanism_change_test [1] [2] (some [[3]]) (some [[4]]) [0] [0]
        (fun _ _ => 0) (fun _ _ _ => 0) = Except.ok p) :=
  ⟨(mechanism_change_test_parent_validation [1] [2] [[3]]).1 [0] [0]
      (fun _ _ => 0) (fun _ _ _ => 0),
   (mechanism_change_test_parent_validation [1] [2] [[3]]).2.2.1 [[4]] [0] [0]
      (fun _ _ => 0) (fun _ _ _ => 0)⟩

/-! ## Standalone scoring pipeline dispatch

Embedding of the per-node dispatch of `estimate_distribution_change_scores`
(distribution_change.py lines 374-396).  `graph_pred n` is
`get_ordered_predecessors(graph, n)` (a node is a root iff it is empty);
`original_col` / `new_col` give the data columns; `conditional_score`
abstracts the call
`_estimate_distribution_change_score(original_data[parents],
new_data[parents], new_data[node], mechanism(node), ...)` with the
per-call-constant arguments (mechanism, difference function, sample budgets)
absorbed. -/

/-- The result dictionary of `estimate_distribution_change_scores`: unflagged
nodes score `0`, flagged roots score the plain difference function on the raw
old/new columns, flagged non-roots score the conditional scorer applied to
the parents' columns and the node's new column. -/
def estimate_distribution_change_scores (nodes : List ℕ)
    (mechanism_changed_for_node : ℕ → Bool) (graph_pred : ℕ → List ℕ)
    (original_col new_col : ℕ → List ℚ)
    (difference_estimation_func : List ℚ → List ℚ → ℚ)
    (conditional_score : List (List ℚ) → List (List ℚ) → List ℚ → ℚ) :
    List (ℕ × ℚ) :=
  nodes.map fun node =>
    (node,
      if mechanism_changed_for_node node then
        if graph_pred node = [] then
          difference_estimation_func (original_col node) (new_col node)
        else
          conditional_score ((graph_pred node).map original_col)
            ((graph_pred node).map new_col) (new_col node)
      else 0)

/-- Looking up a node in a dictionary built by mapping over the node list
returns that node's value. -/
theorem lookup_map_self (f : ℕ → ℚ) (nodes : List ℕ) (n : ℕ) (h : n ∈ nodes) :
    List.lookup n (nodes.map fun m => (m, f m)) = some (f n) := by
  induction nodes with
  | nil => cases h
  | cons m ms ih =>
    rcases List.mem_cons.mp h with h1 | h1
    · subst h1
      simp [List.lookup]
    · by_cases hnm : n = m
      · subst hnm
        simp [List.lookup]
      · simpa [List.lookup, beq_false_of_ne hnm] using ih h1

/-- C7: in the scoring pipeline, an unflagged node scores `0` for every
difference function and conditional scorer (neither is invoked for it); a
flagged root node scores the plain difference function on its raw old/new
columns; a flagged non-root node scores the conditional scorer on its
parents' columns and its new column. -/
theorem estimate_distribution_change_scores_spec (nodes : List ℕ)
    (mechanism_changed_for_node : ℕ → Bool) (graph_pred : ℕ → List ℕ)
    (original_col new_col : ℕ → List ℚ)
    (difference_estimation_func : List ℚ → List ℚ → ℚ)
    (conditional_score : List (List ℚ) → List (List ℚ) → List ℚ → ℚ)
    (n : ℕ) (hmem : n ∈ nodes) :
    (mechanism_changed_for_node n = false →
      ∀ (f : List ℚ → List ℚ → ℚ) (g : List (List ℚ) → List (List ℚ) → List ℚ → ℚ),
        List.lookup n (estimate_distribution_change_scores nodes
            mechanism_changed_for_node graph_pred original_col new_col f g)
          = some 0) ∧
    (mechanism_changed_for_node n = true → graph_pred n = [] →
      List.lookup n (estimate_distribution_change_scores nodes
          mechanism_changed_for_node graph_pred original_col new_col
          difference_estimation_func conditional_score)
        = some (difference_estimation_func (original_col n) (new_col n))) ∧
    (mechanism_changed_for_node n = true → graph_pred n ≠ [] →
      List.lookup n (estimate_distribution_change_scores nodes
          mechanism_changed_for_node graph_pred original_col new_col
          difference_estimation_func conditional_score)
        = some (conditional_score ((graph_pred n).map original_col)
            ((graph_pred n).map new_col) (new_col n))) := by
  refine ⟨?_, ?_, ?_⟩
  · intro hc f g
    rw [estimate_distribution_change_scores, lookup_map_self _ nodes n hmem]
    simp [hc]
  · intro hc hroot
    rw [estimate_distribution_change_scores, lookup_map_self _ nodes n hmem]
    simp [hc, hroot]
  · intro hc hroot
    rw [estimate_distribution_change_scores, lookup_map_self _ nodes n hmem]
    simp [hc, hroot]

/-- Witness for C7: a three-node graph where node `0` is an unflagged root,
node `1` a flagged root and node `2` a flagged non-root with parent `1`. -/
theorem estimate_distribution_change_scores_spec_witness :
    (List.lookup 0 (estimate_distribution_change_scores [0, 1, 2]
        (fun n => n != 0) (fun n => if n = 2 then [1] else [])
        (fun _ => [1]) (fun _ => [2]) (fun a b => b.sum - a.sum)
        (fun _ _ t => t.sum)) = some 0) ∧
    (List.lookup 1 (estimate_distribution_change_scores [0, 1, 2]
        (fun n => n != 0) (fun n => if n = 2 then [1] else [])
        (fun _ => [1]) (fun _ => [2]) (fun a b => b.sum - a.sum)
        (fun _ _ t => t.sum))
      = some ((fun (a b : List ℚ) => b.sum - a.sum) [1] [2])) ∧
    (List.lookup 2 (estimate_distribution_change_scores [0, 1, 2]
        (fun n => n != 0) (fun n => if n = 2 then [1] else [])
        (fun _ => [1]) (fun _ => [2]) (fun a b => b.sum - a.sum)
        (fun _ _ t => t.sum))
      = some ((fun (_ _ : List (List ℚ)) (t : List ℚ) => t.sum) [[1]] [[2]] [2])) :=
  ⟨(estimate_distribution_change_scores_spec [0, 1, 2] (fun n => n != 0)
      (fun n => if n = 2 then [1] else []) (fun _ => [1]) (fun _ => [2])
      (fun a b => b.sum - a.sum) (fun _ _ t => t.sum) 0 (by decide)).1 rfl _ _,
   (estimate_distribution_change_scores_spec [0, 1, 2] (fun n => n != 0)
      (fun n => if n = 2 then [1] else []) (fun _ => [1]) (fun _ => [2])
      (fun a b => b.sum - a.sum) (fun _ _ t => t.sum) 1 (by decide)).2.1 rfl rfl,
   (estimate_distribution_change_scores_spec [0, 1, 2] (fun n => n != 0)
      (fun n => if n = 2 then [1] else []) (fun _ => [1]) (fun _ => [2])
      (fun a b => b.sum - a.sum) (fun _ _ t => t.sum) 2 (by decide)).2.2 rfl
      (by decide)⟩

/-! ## Object-store elaboration of the attribution flow (frame property)

`distribution_change_of_graphs` (distribution_change.py lines 196-241) and
the coalition evaluation inside `_estimate_marginal_distribution_change`
(lines 277-313) mutate graph objects in place: `set_causal_mechanism` and the
`PARENTS_DURING_FIT` writes update node-attribute dictionaries of a graph.
To state what is (not) mutated, graph objects live in an explicit store
addressed by object identity; `graph_factory` (`networkx.DiGraph(graph)`)
allocates a fresh object with copied nodes and attributes, and every write
names the object it targets.  Reads (mechanism extraction, DAG validation,
`node_connected_subgraph_view` — a view sharing the underlying object — and
sampling) do not change the store and are elided or modelled as pure
lookups. -/

/-- Node attributes carried by a graph object: the assigned causal mechanism
and the `PARENTS_DURING_FIT` entry. -/
structure NodeAttrs where
  causal_mechanism : ℕ
  parents_during_fit : List ℕ
deriving DecidableEq

/-- A graph object: node identifiers plus per-node attributes. -/
structure GraphObj where
  node_ids : List ℕ
  attrs : List (ℕ × NodeAttrs)
deriving DecidableEq

/-- The object store: graph objects addressed by identity, plus the next
fresh identity. -/
structure Store where
  graphs : List (ℕ × GraphObj)
  next : ℕ
deriving DecidableEq

/-- A store is well formed when every allocated identity is below `next`. -/
def Store.WF (s : Store) : Prop :=
  ∀ p ∈ s.graphs, p.1 < s.next

/-- Read a graph object (reads never change the store). -/
def read_graph (s : Store) (gid : ℕ) : GraphObj :=
  (s.graphs.lookup gid).getD ⟨[], []⟩

/-- In-place mutation of one graph object. -/
def update_graph (s : Store) (gid : ℕ) (f : GraphObj → GraphObj) : Store :=
  { s with graphs := s.graphs.map fun p => if p.1 = gid then (p.1, f p.2) else p }

/-- Embedding of `graph_factory(graph)` (`networkx.DiGraph(graph)`): allocate a fresh graph
object copying the nodes, edges and current attributes of the source; the
copy has its own attribute storage, so later writes to it do not affect the
source. -/
def graph_factory (s : Store) (src : ℕ) : ℕ × Store :=
  (s.next, { graphs := (s.next, read_graph s src) :: s.graphs, next := s.next + 1 })

/-- Write one node's attribute record on one graph object. -/
def set_node_attrs (s : Store) (gid node : ℕ) (f : NodeAttrs → NodeAttrs) : Store :=
  update_graph s gid fun g =>
    { g with attrs := g.attrs.map fun p => if p.1 = node then (p.1, f p.2) else p }

/-- Embedding of `causal_model.set_causal_mechanism(node, mechanism)`: write the mechanism
attribute of `node` on the model's graph object. -/
def set_causal_mechanism (s : Store) (gid node mechanism : ℕ) : Store :=
  set_node_attrs s gid node fun a => { a with causal_mechanism := mechanism }

/-- Embedding of `causal_model.graph.nodes[node][PARENTS_DURING_FIT] = ...`: write the
parent-order metadata of `node` on the model's graph object. -/
def set_parents_during_fit (s : Store) (gid node : ℕ) (parents : List ℕ) : Store :=
  set_node_attrs s gid node fun a => { a with parents_during_fit := parents }

/-- Python's `sorted` on node identifiers (insertion sort). -/
def insert_sorted (x : ℕ) : List ℕ → List ℕ
  | [] => [x]
  | y :: ys => if x ≤ y then x :: y :: ys else y :: insert_sorted x ys

/-- Embedding of `sorted(list(graph.nodes))`. -/
def sorted_nodes (g : GraphObj) : List ℕ :=
  g.node_ids.foldr insert_sorted []

/-- Embedding of `causal_model.causal_mechanism(node)`: read the mechanism attribute. -/
def causal_mechanism (g : GraphObj) (node : ℕ) : ℕ :=
  ((g.attrs.lookup node).getD ⟨0, []⟩).causal_mechanism

/-- The two write loops of `attribution_set_function`
(distribution_change.py lines 298-305), applied to the freshly allocated copy
`copy_id`: assign each node of the copy its new or old mechanism per the
coalition bit, then recompute each node's `PARENTS_DURING_FIT` on the
copy. -/
def coalition_writes (s1 : Store) (copy_id : ℕ)
    (old_causal_models new_causal_models : List ℕ)
    (get_ordered_predecessors : ℕ → List ℕ) (subset : List ℤ) : Store :=
  let nodes := sorted_nodes (read_graph s1 copy_id)
  let s2 := (List.range old_causal_models.length).foldl
    (fun st i => set_causal_mechanism st copy_id (nodes.getD i 0)
      (if subset.getD i 0 = 1 then new_causal_models.getD i 0
       else old_causal_models.getD i 0)) s1
  (read_graph s2 copy_id).node_ids.foldl
    (fun st node => set_parents_during_fit st copy_id node
      (get_ordered_predecessors node)) s2

/-- One coalition evaluation of `attribution_set_function`
(distribution_change.py lines 291-309), store effects only: the all-zero
coalition is short-circuited without touching the store; otherwise a fresh
copy of the old model's graph is allocated and both write loops run on the
copy; sampling and the difference function are read-only. -/
def attribution_set_function_store (s : Store) (causal_model_old_id : ℕ)
    (old_causal_models new_causal_models : List ℕ)
    (get_ordered_predecessors : ℕ → List ℕ) (subset : List ℤ) : Store :=
  if subset.all (· = 0) then s
  else
    coalition_writes (graph_factory s causal_model_old_id).2
      (graph_factory s causal_model_old_id).1 old_causal_models new_causal_models
      get_ordered_predecessors subset

/-- Embedding of `distribution_change_of_graphs` (distribution_change.py lines 196-241),
store effects only: DAG validation and the subgraph views are read-only; the
old and new mechanism lists are read from the two models in sorted node
order; the baseline draw is read-only; the Shapley estimator then evaluates
the set function on its coalitions (`shapley_coalitions`), each evaluation
mutating only its own fresh copy. -/
def distribution_change_of_graphs_store (s : Store)
    (causal_model_old_id causal_model_new_id : ℕ)
    (get_ordered_predecessors : ℕ → List ℕ)
    (shapley_coalitions : List (List ℤ)) : Store :=
  let old_causal_models :=
    (sorted_nodes (read_graph s causal_model_old_id)).map
      (causal_mechanism (read_graph s causal_model_old_id))
  let new_causal_models :=
    (sorted_nodes (read_graph s causal_model_new_id)).map
      (causal_mechanism (read_graph s causal_model_new_id))
  shapley_coalitions.foldl
    (fun st subset => attribution_set_function_store st causal_model_old_id
      old_causal_models new_causal_models get_ordered_predecessors subset) s

/-- Mutating one graph object leaves every other object unchanged, and
changes neither the allocation counter nor the set of allocated
identities. -/
theorem update_graph_frame (s : Store) (gid : ℕ) (f : GraphObj → GraphObj) (i : ℕ)
    (hi : i ≠ gid) :
    (update_graph s gid f).graphs.lookup i = s.graphs.lookup i := by
  unfold update_graph
  induction s.graphs with
  | nil => rfl
  | cons p ps ih =>
    by_cases hp : p.1 = gid
    · simp only [List.map_cons, if_pos hp]
      rw [List.lookup_cons, List.lookup_cons]
      have : (i == p.1) = false := by simp [hp, hi]
      simp [this, ih]
    · simp only [List.map_cons, if_neg hp]
      rw [List.lookup_cons, List.lookup_cons]
      cases h : (i == p.1) <;> simp [h, ih]

/-- Mutating a graph object preserves the identities present in the store. -/
theorem update_graph_keys (s : Store) (gid : ℕ) (f : GraphObj → GraphObj) :
    (update_graph s gid f).graphs.map Prod.fst = s.graphs.map Prod.fst := by
  unfold update_graph
  induction s.graphs with
  | nil => rfl
  | cons p ps ih =>
    by_cases hp : p.1 = gid <;> simp [hp, ih]

/-- Mutating a graph object preserves well-formedness. -/
theorem update_graph_wf (s : Store) (gid : ℕ) (f : GraphObj → GraphObj)
    (h : Store.WF s) : Store.WF (update_graph s gid f) := by
  intro p hp
  unfold update_graph at hp
  simp only [List.mem_map] at hp
  obtain ⟨q, hq, hqe⟩ := hp
  have : p.1 = q.1 := by
    by_cases h1 : q.1 = gid
    · rw [if_pos h1] at hqe
      rw [← hqe]
    · rw [if_neg h1] at hqe
      rw [← hqe]
  rw [show (update_graph s gid f).next = s.next from rfl, this]
  exact h q hq

/-- A fold of writes targeting a single graph object leaves every other
object, the allocation counter and well-formedness intact. -/
theorem foldl_writes_frame {β : Type} (step : Store → β → Store) (gid : ℕ)
    (hlookup : ∀ st b i, i ≠ gid → (step st b).graphs.lookup i = st.graphs.lookup i)
    (hnext : ∀ st b, (step st b).next = st.next)
    (hwf : ∀ st b, Store.WF st → Store.WF (step st b)) :
    ∀ (l : List β) (s : Store),
      (∀ i, i ≠ gid → (l.foldl step s).graphs.lookup i = s.graphs.lookup i) ∧
      (l.foldl step s).next = s.next ∧
      (Store.WF s → Store.WF (l.foldl step s)) := by
  intro l
  induction l with
  | nil => exact fun s => ⟨fun _ _ => rfl, rfl, id⟩
  | cons b bs ih =>
    intro s
    refine ⟨?_, ?_, ?_⟩
    · intro i hi
      rw [List.foldl_cons, (ih (step s b)).1 i hi, hlookup s b i hi]
    · rw [List.foldl_cons, (ih (step s b)).2.1, hnext s b]
    · intro h
      rw [List.foldl_cons]
      exact (ih (step s b)).2.2 (hwf s b h)

/-- The write loops of a coalition evaluation touch only the copy they are
given: every other graph object, the allocation counter and well-formedness
are preserved. -/
theorem coalition_writes_frame (s1 : Store) (copy_id : ℕ)
    (old_causal_models new_causal_models : List ℕ)
    (get_ordered_predecessors : ℕ → List ℕ) (subset : List ℤ) :
    (∀ i, i ≠ copy_id →
      (coalition_writes s1 copy_id old_causal_models new_causal_models
          get_ordered_predecessors subset).graphs.lookup i = s1.graphs.lookup i) ∧
    (coalition_writes s1 copy_id old_causal_models new_causal_models
        get_ordered_predecessors subset).next = s1.next ∧
    (Store.WF s1 → Store.WF (coalition_writes s1 copy_id old_causal_models
        new_causal_models get_ordered_predecessors subset)) := by
  have h1 := foldl_writes_frame
    (fun st i => set_causal_mechanism st copy_id
      ((sorted_nodes (read_graph s1 copy_id)).getD i 0)
      (if subset.getD i 0 = 1 then new_causal_models.getD i 0
       else old_causal_models.getD i 0)) copy_id
    (fun st b i hi => update_graph_frame st copy_id _ i hi)
    (fun _ _ => rfl)
    (fun st b h => update_graph_wf st copy_id _ h)
    (List.range old_causal_models.length) s1
  have h2 := foldl_writes_frame
    (fun st node => set_parents_during_fit st copy_id node
      (get_ordered_predecessors node)) copy_id
    (fun st b i hi => update_graph_frame st copy_id _ i hi)
    (fun _ _ => rfl)
    (fun st b h => update_graph_wf st copy_id _ h)
    (read_graph ((List.range old_causal_models.length).foldl
      (fun st i => set_causal_mechanism st copy_id
        ((sorted_nodes (read_graph s1 copy_id)).getD i 0)
        (if subset.getD i 0 = 1 then new_causal_models.getD i 0
         else old_causal_models.getD i 0)) s1) copy_id).node_ids
    ((List.range old_causal_models.length).foldl
      (fun st i => set_causal_mechanism st copy_id
        ((sorted_nodes (read_graph s1 copy_id)).getD i 0)
        (if subset.getD i 0 = 1 then new_causal_models.getD i 0
         else old_causal_models.getD i 0)) s1)
  refine ⟨?_, ?_, ?_⟩
  · intro i hi
    exact (h2.1 i hi).trans (h1.1 i hi)
  · exact h2.2.1.trans h1.2.1
  · exact fun h => h2.2.2 (h1.2.2 h)

/-- One coalition evaluation preserves every previously allocated graph
object, never decreases the allocation counter, and preserves
well-formedness: all writes go to the freshly allocated copy. -/
theorem attribution_set_function_store_frame (s : Store) (causal_model_old_id : ℕ)
    (old_causal_models new_causal_models : List ℕ)
    (get_ordered_predecessors : ℕ → List ℕ) (subset : List ℤ)
    (hwf : Store.WF s) :
    (∀ i, i < s.next →
      (attribution_set_function_store s causal_model_old_id old_causal_models
          new_causal_models get_ordered_predecessors subset).graphs.lookup i
        = s.graphs.lookup i) ∧
    s.next ≤ (attribution_set_function_store s causal_model_old_id
        old_causal_models new_causal_models get_ordered_predecessors subset).next ∧
    Store.WF (attribution_set_function_store s causal_model_old_id
        old_causal_models new_causal_models get_ordered_predecessors subset) := by
  unfold attribution_set_function_store
  by_cases hz : subset.all (· = 0)
  · simp only [hz, if_true]
    exact ⟨fun _ _ => by trivial, le_refl _, hwf⟩
  · simp only [hz, Bool.false_eq_true, if_false]
    have hfac1 : (graph_factory s causal_model_old_id).1 = s.next := rfl
    have hfac2 : (graph_factory s causal_model_old_id).2
        = ⟨(s.next, read_graph s causal_model_old_id) :: s.graphs, s.next + 1⟩ := rfl
    have hwf1 : Store.WF (graph_factory s causal_model_old_id).2 := by
      rw [hfac2]
      intro p hp
      rcases List.mem_cons.mp hp with h | h
      · rw [h]
        exact Nat.lt_succ_self _
      · exact Nat.lt_succ_of_lt (hwf p h)
    have hc := coalition_writes_frame (graph_factory s causal_model_old_id).2
      (graph_factory s causal_model_old_id).1 old_causal_models new_causal_models
      get_ordered_predecessors subset
    refine ⟨?_, ?_, hc.2.2 hwf1⟩
    · intro i hi
      rw [hc.1 i (by rw [hfac1]; omega), hfac2]
      rw [List.lookup_cons]
      have : (i == s.next) = false := by simp; omega
      simp [this]
    · rw [hc.2.1, hfac2]
      exact Nat.le_succ _

/-- Folding coalition evaluations preserves every graph object allocated
before the fold, never decreases the allocation counter, and preserves
well-formedness. -/
theorem shapley_fold_frame (causal_model_old_id : ℕ)
    (old_causal_models new_causal_models : List ℕ)
    (get_ordered_predecessors : ℕ → List ℕ) (shapley_coalitions : List (List ℤ)) :
    ∀ s : Store, Store.WF s →
      (∀ i, i < s.next →
        (shapley_coalitions.foldl
          (fun st subset => attribution_set_function_store st causal_model_old_id
            old_causal_models new_causal_models get_ordered_predecessors subset)
          s).graphs.lookup i = s.graphs.lookup i) ∧
      s.next ≤ (shapley_coalitions.foldl
          (fun st subset => attribution_set_function_store st causal_model_old_id
            old_causal_models new_causal_models get_ordered_predecessors subset)
          s).next ∧
      Store.WF (shapley_coalitions.foldl
          (fun st subset => attribution_set_function_store st causal_model_old_id
            old_causal_models new_causal_models get_ordered_predecessors subset) s) := by
  induction shapley_coalitions with
  | nil => exact fun s hwf => ⟨fun _ _ => rfl, le_refl _, hwf⟩
  | cons c cs ih =>
    intro s hwf
    have hstep := attribution_set_function_store_frame s causal_model_old_id
      old_causal_models new_causal_models get_ordered_predecessors c hwf
    have hrest := ih (attribution_set_function_store s causal_model_old_id
      old_causal_models new_causal_models get_ordered_predecessors c) hstep.2.2
    refine ⟨?_, ?_, ?_⟩
    · intro i hi
      rw [List.foldl_cons, hrest.1 i (lt_of_lt_of_le hi hstep.2.1), hstep.1 i hi]
    · rw [List.foldl_cons]
      exact le_trans hstep.2.1 hrest.2.1
    · rw [List.foldl_cons]
      exact hrest.2.2

/-- C8: `distribution_change_of_graphs` leaves both passed-in causal models
unmodified — after all coalition evaluations, the graph objects of the old
and of the new model (their node sets, node attributes and assigned
mechanisms) are exactly as before the call; every mechanism reassignment and
`PARENTS_DURING_FIT` write lands on a freshly allocated copy. -/
theorem distribution_change_of_graphs_no_mutation (s : Store)
    (causal_model_old_id causal_model_new_id : ℕ)
    (get_ordered_predecessors : ℕ → List ℕ) (shapley_coalitions : List (List ℤ))
    (hwf : Store.WF s) (ho : causal_model_old_id < s.next)
    (hn : causal_model_new_id < s.next) :
    (distribution_change_of_graphs_store s causal_model_old_id causal_model_new_id
        get_ordered_predecessors shapley_coalitions).graphs.lookup causal_model_old_id
      = s.graphs.lookup causal_model_old_id ∧
    (distribution_change_of_graphs_store s causal_model_old_id causal_model_new_id
        get_ordered_predecessors shapley_coalitions).graphs.lookup causal_model_new_id
      = s.graphs.lookup causal_model_new_id := by
  have h := shapley_fold_frame causal_model_old_id
    ((sorted_nodes (read_graph s causal_model_old_id)).map
      (causal_mechanism (read_graph s causal_model_old_id)))
    ((sorted_nodes (read_graph s causal_model_new_id)).map
      (causal_mechanism (read_graph s causal_model_new_id)))
    get_ordered_predecessors shapley_coalitions s hwf
  exact ⟨h.1 causal_model_old_id ho, h.1 causal_model_new_id hn⟩

/-- Witness for C8: a store holding two one-node models (ids `0` and `1`,
mechanisms `5` and `7`), one evaluated coalition `[1]`; both stored models
are unchanged afterwards. -/
theorem distribution_change_of_graphs_no_mutation_witness :
    (distribution_change_of_graphs_store
        ⟨[(0, ⟨[0], [(0, ⟨5, []⟩)]⟩), (1, ⟨[0], [(0, ⟨7, []⟩)]⟩)], 2⟩ 0 1
        (fun _ => []) [[1]]).graphs.lookup 0
      = (⟨[(0, ⟨[0], [(0, ⟨5, []⟩)]⟩), (1, ⟨[0], [(0, ⟨7, []⟩)]⟩)], 2⟩ :
          Store).graphs.lookup 0 ∧
    (distribution_change_of_graphs_store
        ⟨[(0, ⟨[0], [(0, ⟨5, []⟩)]⟩), (1, ⟨[0], [(0, ⟨7, []⟩)]⟩)], 2⟩ 0 1
        (fun _ => []) [[1]]).graphs.lookup 1
      = (⟨[(0, ⟨[0], [(0, ⟨5, []⟩)]⟩), (1, ⟨[0], [(0, ⟨7, []⟩)]⟩)], 2⟩ :
          Store).graphs.lookup 1 :=
  distribution_change_of_graphs_no_mutation
    ⟨[(0, ⟨[0], [(0, ⟨5, []⟩)]⟩), (1, ⟨[0], [(0, ⟨7, []⟩)]⟩)], 2⟩ 0 1
    (fun _ => []) [[1]]
    (by intro p hp; simp at hp; rcases hp with h | h <;> simp [h])
    (by norm_num) (by norm_num)

end DistributionChange
